import Mathlib

/-!
Shallow embedding of the page-interaction controller in `src/js/main.js`
(and its variant `src/unnamed/part_000`) of the portfolio repository.

The browser environment visible to the script is modelled by `Env`:
the per-origin key-value storage (`localStorage`, an association list,
`none` when the storage API is absent), the media-query API
(`window.matchMedia`, a availability flag plus the two query results the
script ever asks for), the root element's `data-theme` attribute, and the
`.theme-toggle` control with its optional `.icon` / `.text` sub-elements.

Operations that can throw in JS (property access on `undefined` or `null`)
return `Except JSError`. State mutated before a throw is not observed by
any property proved below, so an `Except`-style model suffices.
-/

namespace Portfolio

/-- A runtime exception, e.g. a property access on `null`/`undefined`. -/
inductive JSError where
  | typeError
deriving DecidableEq, Repr

/-- The `.theme-toggle` DOM element: whether its `.icon` and `.text`
sub-elements exist, and their current text content. -/
structure ToggleDom where
  hasIcon : Bool
  hasText : Bool
  iconText : String
  labelText : String
deriving DecidableEq, Repr

/-- The browser environment the script observes and mutates. -/
structure Env where
  /-- Contents of `localStorage`; `none` models an absent storage API. -/
  storage : Option (List (String × String))
  /-- whether `window.matchMedia` exists. -/
  matchMediaAvail : Bool
  /-- result of `matchMedia('(prefers-color-scheme: light)').matches`. -/
  prefersLight : Bool
  /-- result of `matchMedia('(prefers-color-scheme: dark)').matches`. -/
  prefersDark : Bool
  /-- The root element's `data-theme` attribute (`none` = unset). -/
  dataTheme : Option String
  /-- the `.theme-toggle` element, when present. -/
  toggle : Option ToggleDom
deriving DecidableEq, Repr

/-- Model of `localStorage.getItem(key)`: throws when the storage API is absent,
otherwise returns the stored string or `null` (`none`). -/
def getItem (key : String) (e : Env) : Except JSError (Option String) :=
  match e.storage with
  | none => .error .typeError
  | some kv => .ok (kv.lookup key)

/-- Model of `localStorage.setItem(key, val)`: throws when the storage API is absent;
the new binding shadows any earlier one. -/
def setItem (key val : String) (e : Env) : Except JSError Env :=
  match e.storage with
  | none => .error .typeError
  | some kv => .ok { e with storage := some ((key, val) :: kv) }

/-- Model of `ThemeManager.getInitialTheme` of `src/js/main.js` (lines 14-26):
stored value if truthy; else `'light'` when `matchMedia` exists and
`(prefers-color-scheme: light)` matches; else `'dark'`. -/
def getInitialTheme (e : Env) : Except JSError String :=
  match getItem "theme" e with
  | .error err => .error err
  | .ok (some s) =>
    if s != "" then .ok s
    else if e.matchMediaAvail && e.prefersLight then .ok "light"
    else .ok "dark"
  | .ok none =>
    if e.matchMediaAvail && e.prefersLight then .ok "light"
    else .ok "dark"

/-- Model of `ThemeManager.getInitialTheme` of `src/unnamed/part_000` (lines 14-26):
stored value if truthy; else `'dark'` when `matchMedia` exists and
`(prefers-color-scheme: dark)` matches; else `'light'`. -/
def getInitialThemeVariant (e : Env) : Except JSError String :=
  match getItem "theme" e with
  | .error err => .error err
  | .ok (some s) =>
    if s != "" then .ok s
    else if e.matchMediaAvail && e.prefersDark then .ok "dark"
    else .ok "light"
  | .ok none =>
    if e.matchMediaAvail && e.prefersDark then .ok "dark"
    else .ok "light"

/-- Model of `ThemeManager.updateToggleButton` (lines 36-50): early return when the
toggle is absent; otherwise `icon.textContent` is assigned unguarded in both
branches (so a missing `.icon` throws before any assignment), while the
`.text` assignment is guarded by `if (text)`. -/
def updateToggleButton (theme : String) (e : Env) : Except JSError Env :=
  match e.toggle with
  | none => .ok e
  | some tog =>
    if !tog.hasIcon then .error .typeError
    else if theme == "dark" then
      .ok { e with toggle := some { tog with
              iconText := "☀️",
              labelText := if tog.hasText then "Light" else tog.labelText } }
    else
      .ok { e with toggle := some { tog with
              iconText := "🌙",
              labelText := if tog.hasText then "Dark" else tog.labelText } }

/-- Model of `ThemeManager.applyTheme` (lines 29-33): set the root attribute, persist
under key `"theme"`, then update the toggle presentation. -/
def applyTheme (theme : String) (e : Env) : Except JSError Env :=
  match setItem "theme" theme { e with dataTheme := some theme } with
  | .error err => .error err
  | .ok e2 => updateToggleButton theme e2

/-- Model of `ThemeManager.toggleTheme` (lines 53-57): read the root attribute
(`null` when unset), flip with `currentTheme === 'dark' ? 'light' : 'dark'`,
apply. -/
def toggleTheme (e : Env) : Except JSError Env :=
  let newTheme := if e.dataTheme == some "dark" then "light" else "dark"
  applyTheme newTheme e

/-- The change listener installed by `ThemeManager.watchSystemTheme`
(lines 65-72): re-read the stored value; only when it is falsy, apply the
OS-reported theme (`e.matches ? 'dark' : 'light'`). `matches` is the
event's payload. -/
def watchThemeChangeHandler (osMatches : Bool) (e : Env) : Except JSError Env :=
  match getItem "theme" e with
  | .error err => .error err
  | .ok (some s) =>
    if s != "" then .ok e
    else applyTheme (if osMatches then "dark" else "light") e
  | .ok none => applyTheme (if osMatches then "dark" else "light") e

/-- Model of `ThemeManager.init` (lines 76-86): compute the initial theme and apply
it. (The `watchSystemTheme` subscription and the toggle click wiring do not
change `Env`; the events they react to are modelled by `step`.) -/
def themeManagerInit (e : Env) : Except JSError Env :=
  match getInitialTheme e with
  | .error err => .error err
  | .ok t => applyTheme t e

/-- An external event delivered after `init`: a user click on the toggle
control, or an OS theme-change notification. -/
inductive Event where
  | toggleClick
  | osChange (osMatches : Bool)
deriving DecidableEq, Repr

/-- Effect of one event. The click handler exists only when the toggle was
present (`init` wires it under `if (toggle)`); the change listener exists
only when `matchMedia` was available (`watchSystemTheme` returns early
otherwise). -/
def step (e : Env) (ev : Event) : Except JSError Env :=
  match ev with
  | .toggleClick => if e.toggle.isSome then toggleTheme e else .ok e
  | .osChange m => if e.matchMediaAvail then watchThemeChangeHandler m e else .ok e

/-- Run a list of events in order, propagating the first exception. -/
def runEvents (e : Env) : List Event → Except JSError Env
  | [] => .ok e
  | ev :: rest =>
    match step e ev with
    | .error err => .error err
    | .ok e1 => runEvents e1 rest

/-!
Scroll-reveal observer (`initScrollAnimations`, `src/js/main.js` lines
126-161 / `src/unnamed/part_000` lines 126-145). Elements are identified by
a `Nat` id. The observer's state is the set of currently observed elements
plus, per element, whether the `animate-fade-in` class is in its class list
(`classList` is a set: adding an already-present class is a no-op, and this
script never removes the class). A browser-generated intersection record is
an `Entry`; the callback folds the JS `forEach` over one delivered batch.
-/

/-- One intersection record delivered to the observer callback. -/
structure Entry where
  target : Nat
  isIntersecting : Bool
deriving DecidableEq, Repr

/-- Observer-visible state: observed set and the set of elements carrying
the `animate-fade-in` class. -/
structure ObserverState where
  observed : List Nat
  faded : List Nat
deriving DecidableEq, Repr

/-- Model of `observer.unobserve(target)`: drop the element from the observed set. -/
def unobserve (l : List Nat) (x : Nat) : List Nat :=
  l.filter (fun y => y != x)

/-- Body of the callback's `forEach`: on an intersecting entry, add the
`animate-fade-in` class (set insertion) and unobserve the target; otherwise
do nothing. -/
def processEntry (st : ObserverState) (en : Entry) : ObserverState :=
  if en.isIntersecting then
    { observed := unobserve st.observed en.target,
      faded := if en.target ∈ st.faded then st.faded else st.faded ++ [en.target] }
  else st

/-- The `IntersectionObserver` callback applied to one delivered batch. -/
def observerCallback (st : ObserverState) (batch : List Entry) : ObserverState :=
  batch.foldl processEntry st

/-- Deliver a sequence of batches to the callback. -/
def runBatches (st : ObserverState) (bs : List (List Entry)) : ObserverState :=
  bs.foldl observerCallback st

/-- State after the first `n` batches. -/
def stateAt (st : ObserverState) (bs : List (List Entry)) (n : Nat) : ObserverState :=
  runBatches st (bs.take n)

/-- Number of steps at which element `x` newly acquires the
`animate-fade-in` class. -/
def fadeFlips (st : ObserverState) (bs : List (List Entry)) (x : Nat) : Nat :=
  (List.range bs.length).countP
    (fun n => decide (x ∉ (stateAt st bs n).faded ∧ x ∈ (stateAt st bs (n + 1)).faded))

/-!
Smooth-scroll click interceptor (`initSmoothScroll`, lines 93-109 in both
variants). The handler's observable effect on one click: whether
`e.preventDefault()` ran and how many times `scrollIntoView` was invoked.
`doc` abstracts `document.querySelector(href)`: `true` iff an element
matching the href exists.
-/

/-- Observable outcome of one click on an intercepted anchor. -/
structure ClickOutcome where
  defaultPrevented : Bool
  scrollCalls : Nat
deriving DecidableEq, Repr

/-- The click handler of `initSmoothScroll`: `href === '#'` returns before
`preventDefault`; otherwise default is prevented and the target, when it
exists, is scrolled into view once. -/
def anchorClickHandler (href : String) (doc : String → Bool) : ClickOutcome :=
  if href == "#" then { defaultPrevented := false, scrollCalls := 0 }
  else { defaultPrevented := true,
         scrollCalls := if doc href then 1 else 0 }

/-!
Contact-form submit handler (`initFormHandling`, `src/js/main.js` lines
217-231 / `src/unnamed/part_000` lines 151-165). Form fields are modelled by
their current string values; `form.reset()` restores the default (empty)
value of every field. `alertsShown` counts `alert(...)` calls during the
handler; preventing default submission is what suppresses the browser's
network request — the handler body itself performs no I/O.
-/

/-- Observable outcome of one submission of the contact form. -/
structure SubmitOutcome where
  defaultPrevented : Bool
  alertsShown : Nat
  networkRequests : Nat
  fields : List String
deriving DecidableEq, Repr

/-- The submit handler of `initFormHandling`: `preventDefault`, one alert,
`this.reset()`. -/
def formSubmitHandler (fields : List String) : SubmitOutcome :=
  { defaultPrevented := true,
    alertsShown := 1,
    networkRequests := 0,
    fields := fields.map (fun _ => "") }

/-!
Concrete environments used by witnesses and counterexamples.
-/

/-- A page with working storage, a dark-preferring OS, and no toggle
control in the markup. -/
def envPlain : Env :=
  { storage := some [], matchMediaAvail := true, prefersLight := false,
    prefersDark := true, dataTheme := none, toggle := none }

/-- State of `envPlain` after one `toggleTheme` (it applies `"dark"`). -/
def envPlainDark : Env :=
  { storage := some [("theme", "dark")], matchMediaAvail := true,
    prefersLight := false, prefersDark := true, dataTheme := some "dark",
    toggle := none }

/-- A page whose toggle control exists but lacks its `.icon` sub-element. -/
def envNoIcon : Env :=
  { storage := some [], matchMediaAvail := true, prefersLight := false,
    prefersDark := false, dataTheme := none,
    toggle := some { hasIcon := false, hasText := true, iconText := "", labelText := "" } }

/-- An embedding context (e.g. storage disabled) with no storage API. -/
def envNoStorage : Env :=
  { storage := none, matchMediaAvail := true, prefersLight := false,
    prefersDark := false, dataTheme := none, toggle := none }

/-- A page with a persisted non-standard theme value. -/
def envSepia : Env :=
  { storage := some [("theme", "sepia")], matchMediaAvail := true,
    prefersLight := true, prefersDark := false, dataTheme := none, toggle := none }

/-- State of `envSepia` after `applyTheme "sepia"`. -/
def envSepiaApplied : Env :=
  { storage := some [("theme", "sepia"), ("theme", "sepia")], matchMediaAvail := true,
    prefersLight := true, prefersDark := false, dataTheme := some "sepia", toggle := none }

/-- A page whose root attribute is `light`, storage working, no toggle. -/
def envLight : Env :=
  { storage := some [], matchMediaAvail := true, prefersLight := true,
    prefersDark := false, dataTheme := some "light", toggle := none }

/-- State of `envLight` after one `toggleTheme` (applies `"dark"`). -/
def envLightD : Env :=
  { storage := some [("theme", "dark")], matchMediaAvail := true,
    prefersLight := true, prefersDark := false, dataTheme := some "dark",
    toggle := none }

/-- State of `envLightD` after another `toggleTheme` (applies `"light"`). -/
def envLightL : Env :=
  { storage := some [("theme", "light"), ("theme", "dark")], matchMediaAvail := true,
    prefersLight := true, prefersDark := false, dataTheme := some "light",
    toggle := none }

/-- A page whose toggle control has its `.icon` but no `.text`. -/
def envIconOnly : Env :=
  { storage := some [], matchMediaAvail := true, prefersLight := false,
    prefersDark := false, dataTheme := none,
    toggle := some { hasIcon := true, hasText := false, iconText := "", labelText := "" } }

/-- A page with working storage but no `window.matchMedia`. -/
def envNoMM : Env :=
  { storage := some [], matchMediaAvail := false, prefersLight := false,
    prefersDark := false, dataTheme := none, toggle := none }

/-- A truthy value is persisted under the `"theme"` key: the condition under
which the `watchSystemTheme` change listener leaves the state alone. -/
def storedTruthy (e : Env) : Prop :=
  ∃ kv s, e.storage = some kv ∧ kv.lookup "theme" = some s ∧ s ≠ ""

/-- One element (id 0) observed, none faded. -/
def obs0 : ObserverState := { observed := [0], faded := [] }

/-- A single delivered batch: element 0 intersects. -/
def bs0 : List (List Entry) := [[{ target := 0, isIntersecting := true }]]

/-- A document in which only `#about` matches an element. -/
def doc0 : String → Bool := fun s => s == "#about"

/-- Whether an operation completed without throwing. -/
def isOkB {α : Type} : Except JSError α → Bool
  | .ok _ => true
  | .error _ => false

/-!
Helper lemmas about the ThemeManager operations.
-/

/-- A successful `updateToggleButton` changes only the toggle's
presentation. -/
theorem updateToggleButton_ok_fields {t : String} {e e1 : Env}
    (h : updateToggleButton t e = .ok e1) :
    e1.storage = e.storage ∧ e1.dataTheme = e.dataTheme ∧
    e1.matchMediaAvail = e.matchMediaAvail ∧ e1.toggle.isSome = e.toggle.isSome := by
  unfold updateToggleButton at h
  split at h
  next heq =>
    cases h
    exact ⟨rfl, rfl, rfl, rfl⟩
  next tog heq =>
    split at h
    · exact absurd h (by simp)
    · split at h <;> (cases h; simp [heq])

/-- A successful `setItem` requires the storage API and prepends the new
binding. -/
theorem setItem_ok {k v : String} {e e1 : Env} (h : setItem k v e = .ok e1) :
    ∃ kv, e.storage = some kv ∧ e1 = { e with storage := some ((k, v) :: kv) } := by
  unfold setItem at h
  split at h
  · exact absurd h (by simp)
  next kv heq =>
    refine ⟨kv, heq, ?_⟩
    cases h
    rfl

/-- A successful `applyTheme t` sets the root attribute to `t` and pushes
`("theme", t)` onto storage. -/
theorem applyTheme_ok {t : String} {e e1 : Env} (h : applyTheme t e = .ok e1) :
    ∃ kv, e.storage = some kv ∧ e1.storage = some (("theme", t) :: kv) ∧
      e1.dataTheme = some t ∧ e1.matchMediaAvail = e.matchMediaAvail ∧
      e1.toggle.isSome = e.toggle.isSome := by
  unfold applyTheme at h
  split at h
  · exact absurd h (by simp)
  next e2 heq =>
    obtain ⟨kv, hkv, he2⟩ := setItem_ok heq
    obtain ⟨h1, h2, h3, h4⟩ := updateToggleButton_ok_fields h
    subst he2
    exact ⟨kv, hkv, h1, h2, h3, h4⟩

/-- Reading the `"theme"` key right after it was persisted. -/
theorem getItem_theme_cons {t : String} {kv : List (String × String)} {e : Env}
    (hs : e.storage = some (("theme", t) :: kv)) :
    getItem "theme" e = .ok (some t) := by
  unfold getItem
  rw [hs]
  simp [List.lookup]

/-- Characterization of a successful `toggleTheme`. -/
theorem toggleTheme_ok {e e1 : Env} (h : toggleTheme e = .ok e1) :
    ∃ kv, e.storage = some kv ∧
      e1.dataTheme = some (if e.dataTheme == some "dark" then "light" else "dark") ∧
      e1.storage =
        some (("theme", if e.dataTheme == some "dark" then "light" else "dark") :: kv) ∧
      e1.matchMediaAvail = e.matchMediaAvail ∧ e1.toggle.isSome = e.toggle.isSome := by
  unfold toggleTheme at h
  obtain ⟨kv, h1, h2, h3, h4, h5⟩ := applyTheme_ok h
  exact ⟨kv, h1, h3, h2, h4, h5⟩

/-- After a successful `toggleTheme`, a truthy theme is persisted. -/
theorem storedTruthy_after_toggle {e e1 : Env} (h : toggleTheme e = .ok e1) :
    storedTruthy e1 := by
  obtain ⟨kv, _, _, h3, _, _⟩ := toggleTheme_ok h
  refine ⟨_, (if e.dataTheme == some "dark" then "light" else "dark"), h3,
    by simp [List.lookup], ?_⟩
  split <;> decide

/-- With a truthy persisted theme, the system-theme change listener leaves
the environment unchanged. -/
theorem watchHandler_noop_of_storedTruthy {e : Env} {m : Bool}
    (hi : storedTruthy e) : watchThemeChangeHandler m e = .ok e := by
  obtain ⟨kv, s, h1, h2, h3⟩ := hi
  unfold watchThemeChangeHandler getItem
  rw [h1]
  dsimp only
  rw [h2]
  simp [h3]

/-- With a truthy persisted theme, an OS theme-change event is a no-op. -/
theorem osChange_noop_of_storedTruthy {e : Env} {m : Bool}
    (hi : storedTruthy e) : step e (.osChange m) = .ok e := by
  unfold step
  dsimp only
  split
  · exact watchHandler_noop_of_storedTruthy hi
  · rfl

/-- Every event preserves the truthy-persisted-theme invariant. -/
theorem storedTruthy_step {e e1 : Env} {ev : Event} (hi : storedTruthy e)
    (h : step e ev = .ok e1) : storedTruthy e1 := by
  cases ev with
  | toggleClick =>
    unfold step at h
    dsimp only at h
    split at h
    · exact storedTruthy_after_toggle h
    · cases h; exact hi
  | osChange m =>
    rw [osChange_noop_of_storedTruthy hi] at h
    cases h
    exact hi

/-- Running any event sequence preserves the invariant. -/
theorem storedTruthy_runEvents {e e1 : Env} {evs : List Event}
    (hi : storedTruthy e) (h : runEvents e evs = .ok e1) : storedTruthy e1 := by
  induction evs generalizing e with
  | nil =>
    unfold runEvents at h
    cases h
    exact hi
  | cons ev rest ih =>
    unfold runEvents at h
    split at h
    · exact absurd h (by simp)
    next e2 heq => exact ih (storedTruthy_step hi heq) h

/-!
Helper lemmas about the reveal observer.
-/

/-- Processing one entry never removes the `animate-fade-in` class. -/
theorem faded_mono_entry {st : ObserverState} {en : Entry} {x : Nat}
    (h : x ∈ st.faded) : x ∈ (processEntry st en).faded := by
  unfold processEntry
  split
  · dsimp only
    split
    · exact h
    · exact List.mem_append_left _ h
  · exact h

/-- One delivered batch never removes the class. -/
theorem faded_mono_batch {batch : List Entry} {st : ObserverState} {x : Nat}
    (h : x ∈ st.faded) : x ∈ (observerCallback st batch).faded := by
  induction batch generalizing st with
  | nil => exact h
  | cons en rest ih => exact ih (faded_mono_entry h)

/-- Processing one entry never adds an element to the observed set. -/
theorem observed_antitone_entry {st : ObserverState} {en : Entry} {x : Nat}
    (h : x ∉ st.observed) : x ∉ (processEntry st en).observed := by
  unfold processEntry
  split
  · dsimp only
    intro hmem
    exact h (List.mem_of_mem_filter hmem)
  · exact h

/-- One delivered batch never adds an element to the observed set. -/
theorem observed_antitone_batch {batch : List Entry} {st : ObserverState} {x : Nat}
    (h : x ∉ st.observed) : x ∉ (observerCallback st batch).observed := by
  induction batch generalizing st with
  | nil => exact h
  | cons en rest ih => exact ih (observed_antitone_entry h)

/-- An intersecting entry for `x` removes `x` from the observed set. -/
theorem unobserved_after_entry {st : ObserverState} {en : Entry} {x : Nat}
    (ht : en.target = x) (hi : en.isIntersecting = true) :
    x ∉ (processEntry st en).observed := by
  subst ht
  unfold processEntry
  rw [hi]
  simp [unobserve]

/-- A batch containing an intersecting entry for `x` leaves `x`
unobserved. -/
theorem unobserved_after_batch {batch : List Entry} {st : ObserverState} {x : Nat}
    (h : ∃ en, en ∈ batch ∧ en.target = x ∧ en.isIntersecting = true) :
    x ∉ (observerCallback st batch).observed := by
  induction batch generalizing st with
  | nil => obtain ⟨en, hen, _, _⟩ := h; exact absurd hen (by simp)
  | cons a rest ih =>
    obtain ⟨en, hen, ht, hint⟩ := h
    rcases List.mem_cons.mp hen with rfl | htail
    · show x ∉ (observerCallback (processEntry st en) rest).observed
      exact observed_antitone_batch (unobserved_after_entry ht hint)
    · exact ih ⟨en, htail, ht, hint⟩

/-- A batch containing an intersecting entry for `x` gives `x` the class. -/
theorem faded_after_batch {batch : List Entry} {st : ObserverState} {x : Nat}
    (h : ∃ en, en ∈ batch ∧ en.target = x ∧ en.isIntersecting = true) :
    x ∈ (observerCallback st batch).faded := by
  induction batch generalizing st with
  | nil => obtain ⟨en, hen, _, _⟩ := h; exact absurd hen (by simp)
  | cons a rest ih =>
    obtain ⟨en, hen, ht, hint⟩ := h
    rcases List.mem_cons.mp hen with rfl | htail
    · show x ∈ (observerCallback (processEntry st en) rest).faded
      refine faded_mono_batch ?_
      subst ht
      unfold processEntry
      rw [hint]
      simp only [if_true]
      split
      next hmem => exact hmem
      · exact List.mem_append_right _ (by simp)
    · exact ih ⟨en, htail, ht, hint⟩

/-- The state after `n + 1` batches is the state after `n` batches with the
`n`-th batch (when it exists) delivered. -/
theorem stateAt_succ (st : ObserverState) (bs : List (List Entry)) (n : Nat) :
    stateAt st bs (n + 1) =
      match bs[n]? with
      | some b => observerCallback (stateAt st bs n) b
      | none => stateAt st bs n := by
  unfold stateAt runBatches
  rw [List.take_succ, List.foldl_append]
  cases h : bs[n]? <;> simp [h]

/-- Class membership is monotone along the run. -/
theorem faded_mono_stateAt {st : ObserverState} {bs : List (List Entry)} {x : Nat}
    {n m : Nat} (hnm : n ≤ m) (h : x ∈ (stateAt st bs n).faded) :
    x ∈ (stateAt st bs m).faded := by
  induction m with
  | zero => cases Nat.le_zero.mp hnm; exact h
  | succ k ih =>
    rcases Nat.lt_or_ge n (k + 1) with hlt | hge
    · have hk : x ∈ (stateAt st bs k).faded := ih (Nat.lt_succ_iff.mp hlt)
      rw [stateAt_succ]
      cases hb : bs[k]? with
      | none => exact hk
      | some b => exact faded_mono_batch hk
    · cases Nat.le_antisymm hnm hge; exact h

/-- Non-membership in the observed set is preserved along the run. -/
theorem unobserved_mono_stateAt {st : ObserverState} {bs : List (List Entry)} {x : Nat}
    {n m : Nat} (hnm : n ≤ m) (h : x ∉ (stateAt st bs n).observed) :
    x ∉ (stateAt st bs m).observed := by
  induction m with
  | zero => cases Nat.le_zero.mp hnm; exact h
  | succ k ih =>
    rcases Nat.lt_or_ge n (k + 1) with hlt | hge
    · have hk : x ∉ (stateAt st bs k).observed := ih (Nat.lt_succ_iff.mp hlt)
      rw [stateAt_succ]
      cases hb : bs[k]? with
      | none => exact hk
      | some b => exact observed_antitone_batch hk
    · cases Nat.le_antisymm hnm hge; exact h

/-- Two steps at which `x` newly acquires the class coincide. -/
theorem fadeFlip_unique {st : ObserverState} {bs : List (List Entry)} {x : Nat}
    {a b : Nat}
    (ha : x ∉ (stateAt st bs a).faded ∧ x ∈ (stateAt st bs (a + 1)).faded)
    (hb : x ∉ (stateAt st bs b).faded ∧ x ∈ (stateAt st bs (b + 1)).faded) :
    a = b := by
  by_contra hne
  rcases Nat.lt_or_ge a b with hab | hba
  · exact hb.1 (faded_mono_stateAt hab ha.2)
  · have hba' : b < a := Nat.lt_of_le_of_ne hba (fun hc => hne hc.symm)
    exact ha.1 (faded_mono_stateAt hba' hb.2)

/-- A predicate holding for at most one value is counted at most once on a
duplicate-free list. -/
theorem countP_le_one_of_unique {p : Nat → Bool} {l : List Nat} (hnd : l.Nodup)
    (h : ∀ a b, p a = true → p b = true → a = b) : l.countP p ≤ 1 := by
  induction l with
  | nil => simp
  | cons a l ih =>
    rw [List.countP_cons]
    by_cases hpa : p a = true
    · have hzero : l.countP p = 0 := by
        rw [List.countP_eq_zero]
        intro b hb hpb
        have hab : a = b := h a b hpa hpb
        exact (List.nodup_cons.mp hnd).1 (hab ▸ hb)
      rw [hzero, hpa]
      simp
    · have : l.countP p ≤ 1 := ih (List.nodup_cons.mp hnd).2
      simp [hpa]
      omega

/-!
Claim theorems.
-/

/-- C1: the `watchSystemTheme` change listener applies the OS-reported theme
only if no (truthy) value is persisted under `"theme"` — in particular it is
a no-op whenever one is — and once the user has explicitly toggled, every
subsequent OS theme-change notification leaves the environment, hence the
applied theme, unchanged, regardless of the events in between. -/
theorem osChange_never_overrides_user_toggle :
    (∀ (e : Env) (m : Bool) (kv : List (String × String)) (s : String),
        e.storage = some kv → kv.lookup "theme" = some s → s ≠ "" →
        watchThemeChangeHandler m e = .ok e) ∧
    (∀ (e e1 e2 : Env) (evs : List Event) (m : Bool),
        toggleTheme e = .ok e1 → runEvents e1 evs = .ok e2 →
        step e2 (.osChange m) = .ok e2) := by
  constructor
  · intro e m kv s h1 h2 h3
    exact watchHandler_noop_of_storedTruthy ⟨kv, s, h1, h2, h3⟩
  · intro e e1 e2 evs m h1 h2
    exact osChange_noop_of_storedTruthy
      (storedTruthy_runEvents (storedTruthy_after_toggle h1) h2)

/-- C1 witness: with `"dark"` persisted the listener is a no-op, and after a
concrete toggle an OS notification changes nothing. -/
theorem osChange_never_overrides_user_toggle_witness :
    watchThemeChangeHandler true envPlainDark = .ok envPlainDark ∧
    step envPlainDark (.osChange true) = .ok envPlainDark :=
  ⟨osChange_never_overrides_user_toggle.1 envPlainDark true
      [("theme", "dark")] "dark" rfl rfl (by decide),
   osChange_never_overrides_user_toggle.2 envPlain envPlainDark envPlainDark
      [] true rfl rfl⟩

/-- C4: for `T ∈ {"light", "dark"}`, a completed `applyTheme T` leaves the
root `data-theme` attribute equal to `T` and the value persisted under
`"theme"` equal to `T`. -/
theorem applyTheme_sets_attribute_and_persists (T : String) (e e1 : Env)
    (_hT : T = "light" ∨ T = "dark") (h : applyTheme T e = .ok e1) :
    e1.dataTheme = some T ∧ getItem "theme" e1 = .ok (some T) := by
  obtain ⟨kv, _, h2, h3, _, _⟩ := applyTheme_ok h
  exact ⟨h3, getItem_theme_cons h2⟩

/-- C4 witness: `applyTheme "dark"` on a concrete page. -/
theorem applyTheme_sets_attribute_and_persists_witness :
    ("dark" = "light" ∨ "dark" = "dark") ∧
    (envPlainDark.dataTheme = some "dark" ∧
      getItem "theme" envPlainDark = .ok (some "dark")) :=
  ⟨Or.inr rfl,
   applyTheme_sets_attribute_and_persists "dark" envPlain envPlainDark
     (Or.inr rfl) rfl⟩

/-- C5: starting from an applied theme in `{"light", "dark"}`, two completed
`toggleTheme` calls restore the original root attribute. -/
theorem toggleTheme_twice_restores (e e1 e2 : Env)
    (h0 : e.dataTheme = some "light" ∨ e.dataTheme = some "dark")
    (h1 : toggleTheme e = .ok e1) (h2 : toggleTheme e1 = .ok e2) :
    e2.dataTheme = e.dataTheme := by
  obtain ⟨kv1, _, hd1, _, _, _⟩ := toggleTheme_ok h1
  obtain ⟨kv2, _, hd2, _, _, _⟩ := toggleTheme_ok h2
  rcases h0 with h0 | h0 <;> rw [h0] at hd1 ⊢ <;> simp at hd1 <;>
    rw [hd1] at hd2 <;> simpa using hd2

/-- C5 witness: toggling twice from a concrete light page. -/
theorem toggleTheme_twice_restores_witness :
    (envLight.dataTheme = some "light" ∨ envLight.dataTheme = some "dark") ∧
    envLightL.dataTheme = envLight.dataTheme :=
  ⟨Or.inl rfl,
   toggleTheme_twice_restores envLight envLightD envLightL (Or.inl rfl) rfl rfl⟩

/-- C9: any non-empty stored string `s` under `"theme"` — `"light"`,
`"dark"` or anything else — is returned verbatim by both variants of
`getInitialTheme`, and a completed `applyTheme s` applies and re-persists
exactly `s`: no validation or normalization happens anywhere. -/
theorem stored_theme_value_is_not_validated (s : String) (e : Env)
    (kv : List (String × String)) (hs : s ≠ "") (hst : e.storage = some kv)
    (hlk : kv.lookup "theme" = some s) :
    getInitialTheme e = .ok s ∧ getInitialThemeVariant e = .ok s ∧
    (∀ e1, applyTheme s e = .ok e1 →
      e1.dataTheme = some s ∧ getItem "theme" e1 = .ok (some s)) := by
  refine ⟨?_, ?_, ?_⟩
  · unfold getInitialTheme getItem
    rw [hst]
    dsimp only
    rw [hlk]
    simp [hs]
  · unfold getInitialThemeVariant getItem
    rw [hst]
    dsimp only
    rw [hlk]
    simp [hs]
  · intro e1 h
    obtain ⟨kv1, _, h2, h3, _, _⟩ := applyTheme_ok h
    exact ⟨h3, getItem_theme_cons h2⟩

/-- C9 witness: the out-of-range value `"sepia"`. -/
theorem stored_theme_value_is_not_validated_witness :
    getInitialTheme envSepia = .ok "sepia" ∧
    getInitialThemeVariant envSepia = .ok "sepia" ∧
    (envSepiaApplied.dataTheme = some "sepia" ∧
      getItem "theme" envSepiaApplied = .ok (some "sepia")) :=
  ⟨(stored_theme_value_is_not_validated "sepia" envSepia [("theme", "sepia")]
      (by decide) rfl rfl).1,
   (stored_theme_value_is_not_validated "sepia" envSepia [("theme", "sepia")]
      (by decide) rfl rfl).2.1,
   (stored_theme_value_is_not_validated "sepia" envSepia [("theme", "sepia")]
      (by decide) rfl rfl).2.2 envSepiaApplied rfl⟩

/-- C10: a completed `toggleTheme` applies `"dark"` whenever the root
attribute was anything but exactly `"dark"` (absent or invalid included),
applies `"light"` when it was `"dark"`, and in all cases leaves the applied
and persisted theme in `{"light", "dark"}`. -/
theorem toggleTheme_result_is_always_binary (e e1 : Env)
    (h : toggleTheme e = .ok e1) :
    (e.dataTheme ≠ some "dark" →
      e1.dataTheme = some "dark" ∧ getItem "theme" e1 = .ok (some "dark")) ∧
    (e.dataTheme = some "dark" →
      e1.dataTheme = some "light" ∧ getItem "theme" e1 = .ok (some "light")) ∧
    (e1.dataTheme = some "light" ∨ e1.dataTheme = some "dark") := by
  obtain ⟨kv, _, hd, hstor, _, _⟩ := toggleTheme_ok h
  by_cases hc : e.dataTheme = some "dark"
  · rw [hc] at hd hstor
    simp at hd hstor
    refine ⟨fun hne => absurd hc hne, fun _ => ⟨hd, ?_⟩, Or.inl hd⟩
    exact getItem_theme_cons hstor
  · have hbeq : (e.dataTheme == some "dark") = false := by
      simp [hc]
    rw [hbeq] at hd hstor
    simp at hd hstor
    refine ⟨fun _ => ⟨hd, ?_⟩, fun heq => absurd heq hc, Or.inr hd⟩
    exact getItem_theme_cons hstor

/-- C10 witness: toggling a page whose root attribute is unset applies
`"dark"`. -/
theorem toggleTheme_result_is_always_binary_witness :
    envPlainDark.dataTheme = some "dark" ∧
    getItem "theme" envPlainDark = .ok (some "dark") ∧
    (envPlainDark.dataTheme = some "light" ∨ envPlainDark.dataTheme = some "dark") :=
  ⟨((toggleTheme_result_is_always_binary envPlain envPlainDark rfl).1
      (by simp [envPlain])).1,
   ((toggleTheme_result_is_always_binary envPlain envPlainDark rfl).1
      (by simp [envPlain])).2,
   (toggleTheme_result_is_always_binary envPlain envPlainDark rfl).2.2⟩

/-- C2 counterexample: the claim fails on the code at two concrete inputs.
With the toggle control present but its `.icon` sub-element missing,
`updateToggleButton` throws (the `icon.textContent` assignment is
unguarded), and with the storage API absent, `getInitialTheme` and
`applyTheme` throw (`localStorage` access is never guarded). -/
theorem absent_feature_throws_counterexample :
    updateToggleButton "dark" envNoIcon = .error .typeError ∧
    getInitialTheme envNoStorage = .error .typeError ∧
    applyTheme "dark" envNoStorage = .error .typeError :=
  ⟨rfl, rfl, rfl⟩

/-- C2 (amended): operations return early and silently when the toggle
control, the media-query API, or the scroll target is absent, and
`updateToggleButton` tolerates a missing `.text` sub-element; but a present
toggle without its `.icon` sub-element makes `updateToggleButton` throw, and
an absent storage API makes `getInitialTheme`/`applyTheme` throw. -/
theorem absent_features_silent_except_icon_and_storage :
    (∀ (t : String) (e : Env), e.toggle = none → updateToggleButton t e = .ok e) ∧
    (∀ (t : String) (e : Env) (tog : ToggleDom), e.toggle = some tog →
        tog.hasIcon = true → isOkB (updateToggleButton t e) = true) ∧
    (∀ (e : Env) (kv : List (String × String)), e.storage = some kv →
        isOkB (getInitialTheme e) = true) ∧
    (∀ (e : Env) (m : Bool), e.matchMediaAvail = false →
        step e (.osChange m) = .ok e) ∧
    (∀ (href : String) (doc : String → Bool), doc href = false →
        (anchorClickHandler href doc).scrollCalls = 0) := by
  refine ⟨?_, ?_, ?_, ?_, ?_⟩
  · intro t e h
    unfold updateToggleButton
    rw [h]
  · intro t e tog h hic
    unfold updateToggleButton
    rw [h]
    dsimp only
    rw [hic]
    split
    next hctr => exact absurd hctr (by decide)
    next =>
      split
      · rfl
      · rfl
  · intro e kv h
    unfold getInitialTheme getItem
    rw [h]
    dsimp only
    cases kv.lookup "theme" with
    | none =>
      dsimp only
      split
      · rfl
      · rfl
    | some s =>
      dsimp only
      split
      · rfl
      · split
        · rfl
        · rfl
  · intro e m h
    unfold step
    dsimp only
    rw [h]
    rfl
  · intro href doc h
    unfold anchorClickHandler
    split
    · rfl
    · dsimp only
      rw [h]
      simp

/-- C2 amended witness: each silent case discharged on a concrete page. -/
theorem absent_features_silent_except_icon_and_storage_witness :
    updateToggleButton "dark" envPlain = .ok envPlain ∧
    isOkB (updateToggleButton "dark" envIconOnly) = true ∧
    isOkB (getInitialTheme envNoMM) = true ∧
    step envNoMM (.osChange true) = .ok envNoMM ∧
    (anchorClickHandler "#missing" doc0).scrollCalls = 0 :=
  ⟨absent_features_silent_except_icon_and_storage.1 "dark" envPlain rfl,
   absent_features_silent_except_icon_and_storage.2.1 "dark" envIconOnly
     { hasIcon := true, hasText := false, iconText := "", labelText := "" } rfl rfl,
   absent_features_silent_except_icon_and_storage.2.2.1 envNoMM [] rfl,
   absent_features_silent_except_icon_and_storage.2.2.2.1 envNoMM true rfl,
   absent_features_silent_except_icon_and_storage.2.2.2.2 "#missing" doc0 rfl⟩

/-- C3: both variants of `getInitialTheme` return the persisted preference
when present; with nothing persisted they both follow an available OS
light/dark signal; with no usable signal the `main.js` variant defaults to
`"dark"` and the `part_000` variant to `"light"`. -/
theorem getInitialTheme_policy :
    (∀ (e : Env) (kv : List (String × String)) (s : String),
        e.storage = some kv → kv.lookup "theme" = some s → s ≠ "" →
        getInitialTheme e = .ok s ∧ getInitialThemeVariant e = .ok s) ∧
    (∀ (e : Env) (kv : List (String × String)),
        e.storage = some kv → kv.lookup "theme" = none →
        ((e.matchMediaAvail = true → e.prefersLight = true → e.prefersDark = false →
            getInitialTheme e = .ok "light" ∧ getInitialThemeVariant e = .ok "light") ∧
         (e.matchMediaAvail = true → e.prefersDark = true → e.prefersLight = false →
            getInitialTheme e = .ok "dark" ∧ getInitialThemeVariant e = .ok "dark") ∧
         ((e.matchMediaAvail = false ∨ (e.prefersLight = false ∧ e.prefersDark = false)) →
            getInitialTheme e = .ok "dark" ∧ getInitialThemeVariant e = .ok "light"))) := by
  constructor
  · intro e kv s h1 h2 h3
    constructor
    · unfold getInitialTheme getItem
      rw [h1]
      dsimp only
      rw [h2]
      simp [h3]
    · unfold getInitialThemeVariant getItem
      rw [h1]
      dsimp only
      rw [h2]
      simp [h3]
  · intro e kv h1 h2
    have hmain : getInitialTheme e =
        (if e.matchMediaAvail && e.prefersLight then .ok "light" else .ok "dark") := by
      unfold getInitialTheme getItem
      rw [h1]
      dsimp only
      rw [h2]
    have hvar : getInitialThemeVariant e =
        (if e.matchMediaAvail && e.prefersDark then .ok "dark" else .ok "light") := by
      unfold getInitialThemeVariant getItem
      rw [h1]
      dsimp only
      rw [h2]
    refine ⟨?_, ?_, ?_⟩
    · intro hav hl hd
      rw [hmain, hvar, hav, hl, hd]
      simp
    · intro hav hd hl
      rw [hmain, hvar, hav, hl, hd]
      simp
    · intro hcase
      rcases hcase with hav | ⟨hl, hd⟩
      · rw [hmain, hvar, hav]
        simp
      · rw [hmain, hvar, hl, hd]
        simp

/-- C3 witness: a dark-preferring OS with nothing persisted yields `"dark"`
in both variants. -/
theorem getInitialTheme_policy_witness :
    getInitialTheme envPlain = .ok "dark" ∧
    getInitialThemeVariant envPlain = .ok "dark" :=
  ((getInitialTheme_policy.2 envPlain [] rfl rfl).2.1 rfl rfl rfl)

/-- C7: for an anchor whose href starts with `"#"`: a click on href exactly
`"#"` neither prevents default navigation nor scrolls; a click whose href
matches an existing element prevents default and scrolls into view exactly
once; a click with no matching element prevents default and performs no
scroll. -/
theorem anchor_click_cases (href : String) (doc : String → Bool)
    (_hpre : href.data.head? = some '#') :
    (href = "#" →
      anchorClickHandler href doc = { defaultPrevented := false, scrollCalls := 0 }) ∧
    (href ≠ "#" → doc href = true →
      anchorClickHandler href doc = { defaultPrevented := true, scrollCalls := 1 }) ∧
    (href ≠ "#" → doc href = false →
      anchorClickHandler href doc = { defaultPrevented := true, scrollCalls := 0 }) := by
  refine ⟨?_, ?_, ?_⟩
  · intro h
    subst h
    rfl
  · intro h hdoc
    unfold anchorClickHandler
    simp [h, hdoc]
  · intro h hdoc
    unfold anchorClickHandler
    simp [h, hdoc]

/-- C7 witness: the three cases on a concrete document where only `#about`
exists. -/
theorem anchor_click_cases_witness :
    anchorClickHandler "#" doc0 = { defaultPrevented := false, scrollCalls := 0 } ∧
    anchorClickHandler "#about" doc0 = { defaultPrevented := true, scrollCalls := 1 } ∧
    anchorClickHandler "#missing" doc0 = { defaultPrevented := true, scrollCalls := 0 } :=
  ⟨(anchor_click_cases "#" doc0 (by decide)).1 rfl,
   (anchor_click_cases "#about" doc0 (by decide)).2.1 (by decide) rfl,
   (anchor_click_cases "#missing" doc0 (by decide)).2.2 (by decide) rfl⟩

/-- C8: every submission of the contact form prevents the default browser
submission (so no network request occurs — the handler body performs none),
shows exactly one acknowledgement, and clears every form field while keeping
them all. -/
theorem form_submission_acknowledges_and_clears (fields : List String) :
    (formSubmitHandler fields).defaultPrevented = true ∧
    (formSubmitHandler fields).networkRequests = 0 ∧
    (formSubmitHandler fields).alertsShown = 1 ∧
    (formSubmitHandler fields).fields.all (fun v => v == "") = true ∧
    (formSubmitHandler fields).fields.length = fields.length := by
  refine ⟨rfl, rfl, rfl, ?_, by simp [formSubmitHandler]⟩
  simp [formSubmitHandler, List.all_eq_true]

/-- C6: across any sequence of delivered intersection batches, an element
newly acquires the `animate-fade-in` class at most once; and after any batch
containing an intersecting entry for it, it carries the class and is
unobserved at every later point — the reveal is one-shot and
non-restartable. -/
theorem reveal_is_one_shot (st : ObserverState) (bs : List (List Entry)) (x : Nat) :
    fadeFlips st bs x ≤ 1 ∧
    (∀ (n : Nat) (batch : List Entry), bs[n]? = some batch →
      (∃ en, en ∈ batch ∧ en.target = x ∧ en.isIntersecting = true) →
      x ∈ (stateAt st bs (n + 1)).faded ∧
      ∀ m, n < m → x ∉ (stateAt st bs m).observed) := by
  constructor
  · unfold fadeFlips
    apply countP_le_one_of_unique (List.nodup_range _)
    intro a b hpa hpb
    rw [decide_eq_true_eq] at hpa hpb
    exact fadeFlip_unique hpa hpb
  · intro n batch hget hex
    have hsucc : stateAt st bs (n + 1) = observerCallback (stateAt st bs n) batch := by
      rw [stateAt_succ, hget]
    constructor
    · rw [hsucc]
      exact faded_after_batch hex
    · intro m hm
      refine unobserved_mono_stateAt (Nat.succ_le_of_lt hm) ?_
      rw [hsucc]
      exact unobserved_after_batch hex

/-- C6 witness: one observed element, one intersecting batch. -/
theorem reveal_is_one_shot_witness :
    fadeFlips obs0 bs0 0 ≤ 1 ∧
    0 ∈ (stateAt obs0 bs0 1).faded ∧ 0 ∉ (stateAt obs0 bs0 1).observed :=
  ⟨(reveal_is_one_shot obs0 bs0 0).1,
   ((reveal_is_one_shot obs0 bs0 0).2 0 [{ target := 0, isIntersecting := true }]
      rfl ⟨{ target := 0, isIntersecting := true }, by simp, rfl, rfl⟩).1,
   ((reveal_is_one_shot obs0 bs0 0).2 0 [{ target := 0, isIntersecting := true }]
      rfl ⟨{ target := 0, isIntersecting := true }, by simp, rfl, rfl⟩).2 1
      (by decide)⟩

end Portfolio
